import Mathlib

/-!
# Verification of the stage-sequencing workflow engine

A shallow embedding of the LangGraph-based learning workflow
(`backend/agents/langgraph_workflow.py` together with the five agent
classes under `backend/agents/langgraph_agents/` and the shared state of
`backend/agents/graph_state.py`), followed by theorems settling the
specification's claims about it.

Modelling conventions:
* The Python `AgentState` TypedDict becomes the structure `AgentState`.
  Fields irrelevant to every claim (raw timestamps, pretest results,
  visual example / video accumulators) are dropped; the datetime
  `timestamp` field is not representable and none of the claims touch it.
* Stage outputs whose internal structure no claim inspects
  (content records, quiz questions, learning-path resources) are kept as
  opaque `String` entries of the corresponding lists; only presence,
  count and order matter to the routing logic.
* Each agent's one outbound LLM call is abstracted as a generator
  outcome parameter (`ProfileGen`, `PathGen`, `ContentGen`, `AssessGen`):
  the call may raise, return JSON that parses to a well-formed payload,
  return JSON that parses but misses required keys (profile agent only —
  that is the only agent that dereferences parsed keys after it has
  started writing into the state), or return text with no parseable
  JSON, in which case the Python code substitutes a complete fallback
  payload without recording any error.
* `learner_profile` can be Python `None`, the empty dict `{}` (both
  falsy, but only `None` fails the orchestrator's `is not None` test) or
  a populated dict; `ProfileDict` keeps the three cases apart.
* The router functions return the literal strings `"continue"`,
  `"retry"`, `"end"` exactly as the Python conditional-edge functions do.
* The LangGraph driver is modelled by `run`: fuel-indexed iteration that
  executes the current stage's agent, then applies the stage's
  conditional edge (`continue` advances along the linear stage order,
  `retry` re-invokes the same stage, anything else terminates); the
  `orchestration` node has only the unconditional edge to `END`.
-/

namespace LearningWorkflow

/-- Learner profile dict contents used by the agents (name, subject,
learning style, knowledge level, weak areas). -/
structure LearnerProfile where
  name : String
  subject : String
  learning_style : String
  knowledge_level : Nat
  weak_areas : List String
deriving DecidableEq, Repr

/-- Python value stored in `state["learner_profile"]`: `None`, the empty
dict, or a populated dict. `None` and `{}` are both falsy; only `None`
fails an `is not None` test. -/
inductive ProfileDict where
  | noneVal : ProfileDict
  | emptyDict : ProfileDict
  | dict : LearnerProfile → ProfileDict
deriving DecidableEq, Repr

/-- Python truthiness of the `learner_profile` value. -/
def ProfileDict.truthy : ProfileDict → Bool
  | .dict _ => true
  | _ => false

/-- Python `is not None` on the `learner_profile` value. -/
def ProfileDict.isNotNone : ProfileDict → Bool
  | .noneVal => false
  | _ => true

/-- Model of `profile.get("subject", default)` and friends. -/
def ProfileDict.subjectOr (p : ProfileDict) (d : String) : String :=
  match p with
  | .dict q => q.subject
  | _ => d

/-- Model of `profile.get("learning_style", default)`. -/
def ProfileDict.styleOr (p : ProfileDict) (d : String) : String :=
  match p with
  | .dict q => q.learning_style
  | _ => d

/-- Model of `profile.get("knowledge_level", default)`. -/
def ProfileDict.knowledgeOr (p : ProfileDict) (d : Nat) : Nat :=
  match p with
  | .dict q => q.knowledge_level
  | _ => d

/-- Model of `profile.get("weak_areas", [])`. -/
def ProfileDict.weakOr (p : ProfileDict) : List String :=
  match p with
  | .dict q => q.weak_areas
  | _ => []

/-- One entry of the `messages` log (`graph_state.py` stores these as
string-keyed dicts with sender / receiver / type / content). -/
structure Message where
  sender : String
  receiver : String
  mtype : String
  content : String
deriving DecidableEq, Repr

/-- The shared workflow state (`AgentState` of `graph_state.py`),
restricted to the fields the claims are about. -/
structure AgentState where
  learner_id : String
  learner_profile : ProfileDict
  learning_path_id : Option String
  current_resources : List String
  learning_objectives : List String
  topic : String
  subject : String
  difficulty_level : Nat
  learning_style : String
  weak_areas : List String
  generated_content : List String
  quiz_questions : List String
  progress_data : List (String × String)
  messages : List Message
  current_agent : String
  workflow_step : String
  errors : List String
  retry_count : Nat
  should_continue : Bool
  next_action : String
  session_id : String
  learning_package : Option String
  progress_tracking : Option String
  workflow_status : Option String
deriving DecidableEq, Repr

/-- Outcome of the profile agent's LLM call, as the surrounding Python
code can observe it: the call raises; the response parses to a complete
analysis dict; the response parses but lacks `recommended_difficulty`
(so `__call__` writes `learning_objectives` and then hits a `KeyError`);
or no JSON parses and `_analyze_learning_profile` substitutes its
complete fallback analysis. -/
inductive ProfileGen where
  | raise : String → ProfileGen
  | parsed : List String → Nat → List String → ProfileGen
  | objsOnly : List String → ProfileGen
  | unparseable : ProfileGen
deriving DecidableEq, Repr

/-- Outcome of the path planner's LLM call: raise, a parsed learning
path carrying a resource list, or no parseable JSON (fallback path
derived from the state is used). -/
inductive PathGen where
  | raise : String → PathGen
  | parsed : List String → PathGen
  | unparseable : PathGen
deriving DecidableEq, Repr

/-- Outcome of the content generator's LLM calls for one invocation:
some call raises, or all calls parse, or parsing fails and the complete
fallback record is used per task. -/
inductive ContentGen where
  | raise : String → ContentGen
  | parsed : ContentGen
  | unparseable : ContentGen
deriving DecidableEq, Repr

/-- Outcome of the assessment agent's LLM calls for one invocation. -/
inductive AssessGen where
  | raise : String → AssessGen
  | parsed : AssessGen
  | unparseable : AssessGen
deriving DecidableEq, Repr

/-- Generator outcomes offered to whichever stage runs at a given
invocation. -/
structure GenEnv where
  profileGen : ProfileGen
  pathGen : PathGen
  contentGen : ContentGen
  assessGen : AssessGen
deriving DecidableEq, Repr

/-! ## Profile analysis agent (`profile_agent.py`) -/

/-- Fallback learning objectives produced by
`_analyze_learning_profile` when no JSON parses. -/
def fallbackAnalysisObjectives (q : LearnerProfile) : List String :=
  ["Master fundamentals of " ++ q.subject,
   "Improve understanding in weak areas",
   "Build confidence through " ++ q.learning_style ++ " learning"]

/-- State updates of the profile agent's success path (`__call__`
lines 37-63): write the three analysis outputs, append the
`profile_analysis_complete` message, and hand over to the path planner. -/
def profileSuccess (s : AgentState) (objectives : List String)
    (difficulty : Nat) (focus : List String) : AgentState :=
  { s with
    learning_objectives := objectives
    difficulty_level := difficulty
    weak_areas := focus
    messages := s.messages ++
      [{ sender := "ProfileAnalysisAgent", receiver := "PathPlannerAgent",
         mtype := "profile_analysis_complete", content := "analysis" }]
    current_agent := "PathPlannerAgent"
    workflow_step := "path_planning" }

/-- `ProfileAnalysisAgent.__call__`. On a falsy profile it records the
error and stops; on an LLM raise the `except` block records the error,
increments `retry_count` and sets `should_continue` from the new count;
on a parsed-but-incomplete analysis the objectives are written before
the `KeyError` lands in the same `except` block; otherwise the parsed or
fallback analysis is written. -/
def profile_analysis_agent (g : ProfileGen) (s : AgentState) : AgentState :=
  match s.learner_profile with
  | .dict q =>
    match g with
    | .raise m =>
      { s with
        errors := s.errors ++ ["Profile analysis failed: " ++ m]
        retry_count := s.retry_count + 1
        should_continue := decide (s.retry_count + 1 < 3) }
    | .parsed o d f => profileSuccess s o d f
    | .objsOnly o =>
      { s with
        learning_objectives := o
        errors := s.errors ++ ["Profile analysis failed: KeyError"]
        retry_count := s.retry_count + 1
        should_continue := decide (s.retry_count + 1 < 3) }
    | .unparseable =>
      profileSuccess s (fallbackAnalysisObjectives q)
        (min 5 (q.knowledge_level + 1)) (q.weak_areas.take 3)
  | _ =>
    { s with
      errors := s.errors ++ ["No learner profile provided"]
      should_continue := false }

/-! ## Path planner agent (`path_planner.py`) -/

/-- `_get_latest_message`: newest message of the given type. -/
def get_latest_message (msgs : List Message) (t : String) : Option Message :=
  msgs.reverse.find? (fun m => m.mtype = t)

/-- Fallback resource titles of `_generate_fallback_path`. -/
def fallbackResources (s : AgentState) : List String :=
  ["Introduction to " ++ s.subject,
   "Core " ++ s.subject ++ " Concepts",
   "Practical " ++ s.subject ++ " Applications"]

/-- State updates of the path planner's success path: write the
resources and path id, append one `content_generation_task` message per
resource, hand over to the content generator. -/
def pathSuccess (s : AgentState) (resources : List String) : AgentState :=
  { s with
    current_resources := resources
    learning_path_id := some ("path-" ++ s.session_id)
    messages := s.messages ++ resources.map (fun r =>
      { sender := "PathPlannerAgent", receiver := "ContentGeneratorAgent",
        mtype := "content_generation_task", content := r })
    current_agent := "ContentGeneratorAgent"
    workflow_step := "content_generation" }

/-- `PathPlannerAgent.__call__`. Missing profile-analysis message stops
the workflow; an LLM raise lands in the `except` block (error appended,
`retry_count` incremented, `should_continue` untouched); otherwise the
parsed or fallback path is installed. -/
def path_planner_agent (g : PathGen) (s : AgentState) : AgentState :=
  match get_latest_message s.messages "profile_analysis_complete" with
  | none =>
    { s with
      errors := s.errors ++ ["No profile analysis found"]
      should_continue := false }
  | some _ =>
    match g with
    | .raise m =>
      { s with
        errors := s.errors ++ ["Path planning failed: " ++ m]
        retry_count := s.retry_count + 1 }
    | .parsed resources => pathSuccess s resources
    | .unparseable => pathSuccess s (fallbackResources s)

/-! ## Content generator agent (`langgraph_agents/content_generator.py`) -/

/-- `_get_content_tasks`: payloads of messages addressed to the content
generator with type `content_generation_task`. -/
def content_tasks (s : AgentState) : List String :=
  (s.messages.filter (fun m =>
    m.receiver = "ContentGeneratorAgent" && m.mtype = "content_generation_task")).map
    (fun m => m.content)

/-- State updates of the content generator's success path. -/
def contentSuccess (s : AgentState) (records : List String) : AgentState :=
  { s with
    generated_content := records
    messages := s.messages ++
      [{ sender := "ContentGeneratorAgent", receiver := "AssessmentAgent",
         mtype := "content_generation_complete", content := "count" }]
    current_agent := "AssessmentAgent"
    workflow_step := "assessment_generation" }

/-- `ContentGeneratorAgent.__call__`. With no pending tasks it only
advances the bookkeeping fields; an LLM raise lands in the `except`
block before any state write; otherwise one record per task is written
(parsed or fallback). -/
def content_generator_agent (g : ContentGen) (s : AgentState) : AgentState :=
  if content_tasks s = [] then
    { s with
      current_agent := "AssessmentAgent"
      workflow_step := "assessment_generation" }
  else
    match g with
    | .raise m =>
      { s with
        errors := s.errors ++ ["Content generation failed: " ++ m]
        retry_count := s.retry_count + 1 }
    | .parsed =>
      contentSuccess s ((content_tasks s).map (fun t => "content-" ++ t))
    | .unparseable =>
      contentSuccess s ((content_tasks s).map (fun t => "fallback-content-" ++ t))

/-! ## Assessment agent (`assessment_agent.py`) -/

/-- Python dict update `d[k] = v` on a string-keyed dict kept as an
association list. -/
def set_assoc (d : List (String × String)) (k v : String) :
    List (String × String) :=
  if d.any (fun p => p.1 = k) then
    d.map (fun p => if p.1 = k then (k, v) else p)
  else d ++ [(k, v)]

/-- State updates of the assessment agent's success path: quiz
questions, the strategy entry in `progress_data`, the completion
message, hand-over to the orchestrator and `should_continue := true`. -/
def assessSuccess (s : AgentState) (questions : List String) : AgentState :=
  { s with
    quiz_questions := questions
    progress_data := set_assoc s.progress_data "assessment_strategy" "adaptive_assessment"
    messages := s.messages ++
      [{ sender := "AssessmentAgent", receiver := "OrchestratorAgent",
         mtype := "assessment_generation_complete", content := "strategy" }]
    current_agent := "OrchestratorAgent"
    workflow_step := "orchestration_complete"
    should_continue := true }

/-- `AssessmentAgent.__call__`. With no generated content only the
error is appended (no retry_count increment anywhere in this agent); an
LLM raise lands in the `except` block; `_create_assessment_strategy`
dereferences `learner_profile`, so a `None` profile raises into the
same `except` block before any state write; otherwise one question per
content record is written. -/
def assessment_agent (g : AssessGen) (s : AgentState) : AgentState :=
  if s.generated_content = [] then
    { s with errors := s.errors ++ ["No content available for assessment generation"] }
  else
    match g with
    | .raise m =>
      { s with errors := s.errors ++ ["Assessment generation failed: " ++ m] }
    | .parsed =>
      if s.learner_profile.isNotNone then
        assessSuccess s (s.generated_content.map (fun c => "quiz-" ++ c))
      else
        { s with errors := s.errors ++ ["Assessment generation failed: NoneType"] }
    | .unparseable =>
      if s.learner_profile.isNotNone then
        assessSuccess s (s.generated_content.map (fun c => "fallback-quiz-" ++ c))
      else
        { s with errors := s.errors ++ ["Assessment generation failed: NoneType"] }

/-! ## Orchestrator agent (`orchestrator_agent.py`) -/

/-- `_validate_workflow_completion`: names of the required components
that are absent, in the dict order of the Python code. -/
def missing_components (s : AgentState) : List String :=
  (if s.learner_profile.isNotNone then [] else ["learner_profile"]) ++
  (if s.learning_objectives.length > 0 then [] else ["learning_objectives"]) ++
  (if s.generated_content.length > 0 then [] else ["generated_content"]) ++
  (if s.quiz_questions.length > 0 then [] else ["quiz_questions"]) ++
  (if s.learning_path_id.isSome then [] else ["learning_path_id"])

/-- `OrchestratorAgent.__call__` with `_handle_incomplete_workflow`
inlined: a complete workflow gets the final package and
`should_continue := false`; an incomplete one gets the incompleteness
error plus a `next_action` restart hint chosen by the if/elif chain
(note the chain never inspects `learning_objectives` or
`learning_path_id` — those fall to the manual-intervention branch). -/
def orchestrator_agent (s : AgentState) : AgentState :=
  let missing := missing_components s
  if missing = [] then
    { s with
      learning_package := some ("package-" ++ s.session_id)
      progress_tracking := some ("progress-" ++ s.learner_id)
      workflow_status := some "completed"
      should_continue := false
      next_action := "deliver_to_learner"
      messages := s.messages ++
        [{ sender := "OrchestratorAgent", receiver := "System",
           mtype := "workflow_complete", content := "complete" }] }
  else
    let s1 := { s with
      errors := s.errors ++
        ["Workflow incomplete. Missing: " ++ String.intercalate ", " missing] }
    if missing.contains "learner_profile" then
      { s1 with
        next_action := "restart_profile_analysis"
        current_agent := "ProfileAnalysisAgent" }
    else if missing.contains "generated_content" then
      { s1 with
        next_action := "restart_content_generation"
        current_agent := "ContentGeneratorAgent" }
    else if missing.contains "quiz_questions" then
      { s1 with
        next_action := "restart_assessment_generation"
        current_agent := "AssessmentAgent" }
    else
      { s1 with
        should_continue := false
        next_action := "manual_intervention_required" }

/-! ## Conditional-edge routers (`langgraph_workflow.py` lines 98-144) -/

/-- `_should_continue_from_profile`. -/
def should_continue_from_profile (s : AgentState) : String :=
  if s.errors ≠ [] ∧ s.retry_count < 3 then "retry"
  else if s.errors ≠ [] then "end"
  else if s.learning_objectives ≠ [] then "continue"
  else "retry"

/-- `_should_continue_from_path`. -/
def should_continue_from_path (s : AgentState) : String :=
  if s.errors ≠ [] ∧ s.retry_count < 3 then "retry"
  else if s.errors ≠ [] then "end"
  else if s.current_resources ≠ [] then "continue"
  else "retry"

/-- `_should_continue_from_content`. -/
def should_continue_from_content (s : AgentState) : String :=
  if s.errors ≠ [] ∧ s.retry_count < 3 then "retry"
  else if s.errors ≠ [] then "end"
  else if s.generated_content ≠ [] then "continue"
  else "retry"

/-- `_should_continue_from_assessment`. -/
def should_continue_from_assessment (s : AgentState) : String :=
  if s.errors ≠ [] ∧ s.retry_count < 3 then "retry"
  else if s.errors ≠ [] then "end"
  else if s.quiz_questions ≠ [] then "continue"
  else "retry"

/-! ## Engine (`_create_workflow` and the LangGraph driver) -/

/-- The five stages, in pipeline order. -/
inductive Stage where
  | profile : Stage
  | path : Stage
  | content : Stage
  | assessment : Stage
  | orchestration : Stage
deriving DecidableEq, Repr

/-- Successor stage along the `"continue"` edges of `_create_workflow`. -/
def nextStageOf : Stage → Stage
  | .profile => .path
  | .path => .content
  | .content => .assessment
  | .assessment => .orchestration
  | .orchestration => .orchestration

/-- Agent node bound to each stage by `workflow.add_node`. -/
def agentOf : Stage → GenEnv → AgentState → AgentState
  | .profile, g, s => profile_analysis_agent g.profileGen s
  | .path, g, s => path_planner_agent g.pathGen s
  | .content, g, s => content_generator_agent g.contentGen s
  | .assessment, g, s => assessment_agent g.assessGen s
  | .orchestration, _, s => orchestrator_agent s

/-- Conditional-edge function bound to each stage; `orchestration` has
no conditional edges, only its unconditional edge to `END`. -/
def routerOf : Stage → AgentState → String
  | .profile, s => should_continue_from_profile s
  | .path, s => should_continue_from_path s
  | .content, s => should_continue_from_content s
  | .assessment, s => should_continue_from_assessment s
  | .orchestration, _ => "end"

/-- The LangGraph driver: run up to `fuel` stage invocations starting
from stage `st` in state `s`; the `k`-th invocation overall draws its
generator outcomes from `env k`. Result `none` means the run has not
terminated within `fuel` invocations; `some s'` is the final state of a
terminated run. The `orchestration` node ends the run unconditionally. -/
def run (env : Nat → GenEnv) : Nat → Nat → Stage → AgentState → Option AgentState
  | 0, _, _, _ => none
  | fuel + 1, k, st, s =>
    let s' := agentOf st (env k) s
    if st = .orchestration then some s'
    else
      let v := routerOf st s'
      if v = "continue" then run env fuel (k + 1) (nextStageOf st) s'
      else if v = "retry" then run env fuel (k + 1) st s'
      else some s'

/-- `_create_initial_state` (uuid-valued fields are taken as
parameters; `datetime.utcnow()` is dropped). -/
def create_initial_state (p : ProfileDict) (learnerId sessionId : String) :
    AgentState :=
  { learner_id := learnerId
    learner_profile := p
    learning_path_id := none
    current_resources := []
    learning_objectives := []
    topic := p.subjectOr "general"
    subject := p.subjectOr "general"
    difficulty_level := p.knowledgeOr 1
    learning_style := p.styleOr "visual"
    weak_areas := p.weakOr
    generated_content := []
    quiz_questions := []
    progress_data := []
    messages := []
    current_agent := "ProfileAnalysisAgent"
    workflow_step := "profile_analysis"
    errors := []
    retry_count := 0
    should_continue := true
    next_action := "start_workflow"
    session_id := sessionId
    learning_package := none
    progress_tracking := none
    workflow_status := none }

/-- Shape of the dict returned by `run_workflow_sync` /
`_extract_workflow_results`: failure extracted from a final state with
errors, failure produced by the `except` block around
`workflow.invoke`, or success. -/
inductive WorkflowResult where
  | failed : List String → List String → List String → List String → WorkflowResult
  | failedExc : String → AgentState → WorkflowResult
  | succeeded : String → Nat → String → WorkflowResult
deriving DecidableEq, Repr

/-- The `"success"` flag carried by every result dict. -/
def WorkflowResult.success : WorkflowResult → Bool
  | .succeeded _ _ _ => true
  | _ => false

/-- `_extract_workflow_results`: a final state with a non-empty errors
list yields the failure shape carrying the full errors list and the
partial outputs; otherwise the success shape. -/
def extract_workflow_results (s : AgentState) : WorkflowResult :=
  if s.errors ≠ [] then
    .failed s.errors s.generated_content s.quiz_questions s.learning_objectives
  else
    .succeeded s.session_id s.messages.length s.workflow_step

/-- `run_workflow_sync`: build the initial state, invoke the graph with
the framework's recursion limit, extract results, and catch any raise
from `invoke` (for instance the framework's recursion-limit error on a
run that has not terminated within `limit` invocations), returning the
initial state as `partial_results` in that case. -/
def run_workflow_sync (env : Nat → GenEnv) (limit : Nat) (p : ProfileDict)
    (learnerId sessionId : String) : WorkflowResult :=
  let s0 := create_initial_state p learnerId sessionId
  match run env limit 0 .profile s0 with
  | some s => extract_workflow_results s
  | none => .failedExc "GraphRecursionError" s0

/-! ## Concrete fixtures used by the counterexamples and witnesses -/

/-- Demonstration learner profile. -/
def pDemo : LearnerProfile :=
  { name := "a", subject := "math", learning_style := "visual",
    knowledge_level := 2, weak_areas := ["algebra"] }

/-- Generator environment in which every LLM call raises. -/
def demoEnvRaise : Nat → GenEnv := fun _ =>
  { profileGen := .raise "llm", pathGen := .raise "llm",
    contentGen := .raise "llm", assessGen := .raise "llm" }

/-- Generator environment in which every LLM call parses cleanly. -/
def demoEnvGood : Nat → GenEnv := fun _ =>
  { profileGen := .parsed ["obj1"] 2 ["algebra"], pathGen := .parsed ["r1", "r2"],
    contentGen := .parsed, assessGen := .parsed }

/-- Initial state for a populated learner profile. -/
def demoInit : AgentState := create_initial_state (.dict pDemo) "lrn" "sid"

/-- Initial state for an empty learner profile. -/
def demoInitEmpty : AgentState := create_initial_state .emptyDict "lrn" "sid"

/-- Scenario B trace: the profile stage raises on its first two
attempts, then succeeds on the third. -/
def scenarioB_state : AgentState :=
  profile_analysis_agent (.parsed ["obj"] 2 [])
    (profile_analysis_agent (.raise "llm")
      (profile_analysis_agent (.raise "llm") demoInit))

/-- Final state of the profile stage after three raising attempts
(`retry_count` reaches the ceiling and the router ends the run). -/
def raise3_final : AgentState :=
  profile_analysis_agent (.raise "llm")
    (profile_analysis_agent (.raise "llm")
      (profile_analysis_agent (.raise "llm") demoInit))

/-- Pre-invocation state with a leftover `retry_count` of 2 and no
errors, used to watch a `continue` transition. -/
def c4_pre : AgentState := { demoInit with retry_count := 2 }

/-- Post-invocation state of `c4_pre` after a clean profile success. -/
def c4_post : AgentState := profile_analysis_agent (.parsed ["obj"] 2 []) c4_pre

/-- State reaching final orchestration with everything present except
`generated_content` (Scenario D of the spec). -/
def c5_state : AgentState :=
  { demoInit with
    learning_objectives := ["o"], quiz_questions := ["q"],
    learning_path_id := some "p", generated_content := [] }

/-- State carrying one pending content-generation task. -/
def c7_task_state : AgentState :=
  { demoInit with
    messages := [{ sender := "PathPlannerAgent", receiver := "ContentGeneratorAgent",
                   mtype := "content_generation_task", content := "r1" }] }

/-- Post-state of a first raising profile attempt. -/
def c8_pre : AgentState := profile_analysis_agent (.raise "llm") demoInit

/-- Second profile attempt after `c8_pre`, this time successful. -/
def c8_post : AgentState := profile_analysis_agent (.parsed ["obj"] 2 []) c8_pre

/-- Successful profile invocation from the fresh initial state. -/
def c3_state : AgentState := profile_analysis_agent (.parsed ["obj"] 2 ["algebra"]) demoInit

/-- Generator environment used for the leftover-retry-count run: the
profile analysis parses cleanly with non-empty objectives. -/
def demoEnvC4 : Nat → GenEnv := fun _ =>
  { profileGen := .parsed ["obj"] 2 [], pathGen := .parsed ["r1"],
    contentGen := .parsed, assessGen := .parsed }

/-- Append-only growth of a log: the new log is the old log with some
suffix appended (old entries unchanged, in order, as a prefix). -/
def GrowsTo (old new : List α) : Prop := ∃ t, new = old ++ t

/-- Router verdict as the code computes it, phrased over the raw data:
the emptiness test is on the whole cumulative errors list. -/
def amended_router_verdict (errors : List String) (rc : Nat) (output : List String) :
    String :=
  if errors = [] then (if output ≠ [] then "continue" else "retry")
  else if rc < 3 then "retry" else "end"

/-! ## Helper lemmas -/

theorem growsTo_refl {α : Type} (l : List α) : GrowsTo l l :=
  ⟨[], (List.append_nil l).symm⟩

theorem growsTo_append {α : Type} (l t : List α) : GrowsTo l (l ++ t) :=
  ⟨t, rfl⟩

theorem growsTo_trans {α : Type} {a b c : List α}
    (h1 : GrowsTo a b) (h2 : GrowsTo b c) : GrowsTo a c := by
  obtain ⟨t, rfl⟩ := h1
  obtain ⟨u, rfl⟩ := h2
  exact ⟨t ++ u, List.append_assoc a t u⟩

theorem profile_agent_no_profile (g : ProfileGen) (s : AgentState)
    (h : s.learner_profile.truthy = false) :
    profile_analysis_agent g s =
      { s with errors := s.errors ++ ["No learner profile provided"],
               should_continue := false } := by
  unfold profile_analysis_agent
  cases hp : s.learner_profile with
  | dict q => rw [hp] at h; simp [ProfileDict.truthy] at h
  | noneVal => rfl
  | emptyDict => rfl

theorem router_template_continue_iff (errors output : List String) (rc : Nat) :
    ((if errors ≠ [] ∧ rc < 3 then "retry"
      else if errors ≠ [] then "end"
      else if output ≠ [] then "continue" else "retry") = "continue") ↔
    (errors = [] ∧ output ≠ []) := by
  split_ifs with h1 h2 h3
  · constructor
    · intro h; exact absurd h (by decide)
    · intro h; exact absurd h.1 h1.1
  · constructor
    · intro h; exact absurd h (by decide)
    · intro h; exact absurd h.1 h2
  · constructor
    · intro _; refine ⟨?_, h3⟩
      by_contra he
      exact h1 ⟨he, by
        by_contra hr
        exact h2 he⟩
    · intro _; rfl
  · constructor
    · intro h; exact absurd h (by decide)
    · intro h; exact absurd h.2 h3

theorem router_template_eq_amended (errors output : List String) (rc : Nat) :
    (if errors ≠ [] ∧ rc < 3 then "retry"
     else if errors ≠ [] then "end"
     else if output ≠ [] then "continue" else "retry") =
    amended_router_verdict errors rc output := by
  unfold amended_router_verdict
  by_cases he : errors = [] <;> by_cases hr : rc < 3 <;>
    by_cases ho : output = [] <;> simp [he, hr, ho]

/-! ## Claim C1 — router verdict priority order -/

/-- Claim C1, counterexample. The claim says the verdict is `retry`
only when `errors` gained a new entry during the invocation, and that a
stage erroring on each of its first two attempts and succeeding on the
third receives verdict `continue` with `retry_count = 2`. In the code
the routers test the cumulative `errors` list, so the successful third
attempt of Scenario B (two prior errors, `retry_count = 2`, non-empty
`learning_objectives`) receives verdict `"retry"`, not `"continue"`. -/
theorem c1_counterexample :
    scenarioB_state.retry_count = 2 ∧
    scenarioB_state.learning_objectives = ["obj"] ∧
    scenarioB_state.errors.length = 2 ∧
    should_continue_from_profile scenarioB_state = "retry" := by decide

/-- Claim C1, amended. The router verdict is computed from the
cumulative `errors` list, not from whether it gained an entry during
the invocation: with empty `errors` the verdict is `continue` when the
stage's required output is present and `retry` otherwise; with
non-empty `errors` it is `retry` below the retry ceiling (3) and `end`
at or above it. All four stage routers follow this rule. -/
theorem c1_amended_router_verdicts (s : AgentState) :
    should_continue_from_profile s =
      amended_router_verdict s.errors s.retry_count s.learning_objectives ∧
    should_continue_from_path s =
      amended_router_verdict s.errors s.retry_count s.current_resources ∧
    should_continue_from_content s =
      amended_router_verdict s.errors s.retry_count s.generated_content ∧
    should_continue_from_assessment s =
      amended_router_verdict s.errors s.retry_count s.quiz_questions :=
  ⟨router_template_eq_amended s.errors s.learning_objectives s.retry_count,
   router_template_eq_amended s.errors s.current_resources s.retry_count,
   router_template_eq_amended s.errors s.generated_content s.retry_count,
   router_template_eq_amended s.errors s.quiz_questions s.retry_count⟩

/-! ## Claim C8 — outputs populated iff verdict continue -/

/-- Claim C8, counterexample. A profile-stage invocation that succeeds
after one earlier failed attempt populates `learning_objectives`, yet
its router verdict is `"retry"` because the cumulative `errors` list is
non-empty — refuting "populated if and only if the verdict is
`continue`". -/
theorem c8_counterexample :
    c8_post.learning_objectives = ["obj"] ∧
    should_continue_from_profile c8_post = "retry" := by decide

/-- Claim C8, amended. Only the forward direction holds: a router
returns `"continue"` exactly when the stage's required output is
non-empty and the cumulative errors list is empty; so `continue`
implies the output is populated, but a populated output can still
draw `retry` when errors is non-empty. -/
theorem c8_amended_continue_characterization (s : AgentState) :
    (should_continue_from_profile s = "continue" ↔
      s.errors = [] ∧ s.learning_objectives ≠ []) ∧
    (should_continue_from_path s = "continue" ↔
      s.errors = [] ∧ s.current_resources ≠ []) ∧
    (should_continue_from_content s = "continue" ↔
      s.errors = [] ∧ s.generated_content ≠ []) ∧
    (should_continue_from_assessment s = "continue" ↔
      s.errors = [] ∧ s.quiz_questions ≠ []) :=
  ⟨router_template_continue_iff s.errors s.learning_objectives s.retry_count,
   router_template_continue_iff s.errors s.current_resources s.retry_count,
   router_template_continue_iff s.errors s.generated_content s.retry_count,
   router_template_continue_iff s.errors s.quiz_questions s.retry_count⟩

/-! ## Claim C10 — missing learner profile -/

/-- Claim C10, confirmed. On a missing or empty `learner_profile` the
profile agent does not raise: whatever the generator would have
returned, it appends exactly "No learner profile provided" to `errors`,
sets `should_continue` to `false`, and returns the state otherwise
unchanged — `learning_objectives` stays empty, no message is appended,
and `retry_count` is untouched. -/
theorem c10_no_profile_guard (g : ProfileGen) (s : AgentState)
    (h1 : s.learner_profile.truthy = false) (h2 : s.learning_objectives = []) :
    profile_analysis_agent g s =
      { s with errors := s.errors ++ ["No learner profile provided"],
               should_continue := false } ∧
    (profile_analysis_agent g s).errors = s.errors ++ ["No learner profile provided"] ∧
    (profile_analysis_agent g s).should_continue = false ∧
    (profile_analysis_agent g s).learning_objectives = [] ∧
    (profile_analysis_agent g s).messages = s.messages ∧
    (profile_analysis_agent g s).retry_count = s.retry_count := by
  have h := profile_agent_no_profile g s h1
  rw [h]
  exact ⟨rfl, rfl, rfl, h2, rfl, rfl⟩

/-- Claim C10, witness at the concrete empty-profile initial state. -/
theorem c10_witness :
    profile_analysis_agent (.parsed ["x"] 1 []) demoInitEmpty =
      { demoInitEmpty with
        errors := demoInitEmpty.errors ++ ["No learner profile provided"],
        should_continue := false } ∧
    (profile_analysis_agent (.parsed ["x"] 1 []) demoInitEmpty).errors =
      demoInitEmpty.errors ++ ["No learner profile provided"] ∧
    (profile_analysis_agent (.parsed ["x"] 1 []) demoInitEmpty).should_continue = false ∧
    (profile_analysis_agent (.parsed ["x"] 1 []) demoInitEmpty).learning_objectives = [] ∧
    (profile_analysis_agent (.parsed ["x"] 1 []) demoInitEmpty).messages =
      demoInitEmpty.messages ∧
    (profile_analysis_agent (.parsed ["x"] 1 []) demoInitEmpty).retry_count =
      demoInitEmpty.retry_count :=
  c10_no_profile_guard (.parsed ["x"] 1 []) demoInitEmpty (by decide) (by decide)

/-! ## Claim C3 — stage nodes and the control fields -/

/-- Claim C3, counterexample. A successful profile-stage invocation
itself rewrites the control fields the claim reserves for the
Engine/Router: `workflow_step` moves from "profile_analysis" to
"path_planning" and `current_agent` from "ProfileAnalysisAgent" to
"PathPlannerAgent"; a raising invocation increments `retry_count`, and
at the ceiling it flips `should_continue` to `false`. -/
theorem c3_counterexample :
    demoInit.workflow_step = "profile_analysis" ∧
    c3_state.workflow_step = "path_planning" ∧
    demoInit.current_agent = "ProfileAnalysisAgent" ∧
    c3_state.current_agent = "PathPlannerAgent" ∧
    (profile_analysis_agent (.raise "boom") demoInit).retry_count = 1 ∧
    demoInit.retry_count = 0 ∧
    (profile_analysis_agent (.raise "boom") { demoInit with retry_count := 2 }).should_continue = false := by
  decide

/-- Claim C3, amended. Stage nodes do mutate the control fields: on a
parsed generator result the profile agent advances `workflow_step` and
`current_agent` to the next stage's values (leaving `retry_count` and
`should_continue` alone), and on a generator raise it increments
`retry_count` and recomputes `should_continue` from the new count
(leaving `workflow_step` and `current_agent` alone). The input state
may additionally differ from the output in the stage outputs, the
message log and the errors list. -/
theorem c3_amended_profile_control_fields (s : AgentState) (q : LearnerProfile)
    (o f : List String) (d : Nat) (m : String)
    (h : s.learner_profile = .dict q) :
    ((profile_analysis_agent (.parsed o d f) s).workflow_step = "path_planning" ∧
     (profile_analysis_agent (.parsed o d f) s).current_agent = "PathPlannerAgent" ∧
     (profile_analysis_agent (.parsed o d f) s).retry_count = s.retry_count ∧
     (profile_analysis_agent (.parsed o d f) s).should_continue = s.should_continue) ∧
    ((profile_analysis_agent (.raise m) s).retry_count = s.retry_count + 1 ∧
     (profile_analysis_agent (.raise m) s).should_continue = decide (s.retry_count + 1 < 3) ∧
     (profile_analysis_agent (.raise m) s).workflow_step = s.workflow_step ∧
     (profile_analysis_agent (.raise m) s).current_agent = s.current_agent) := by
  unfold profile_analysis_agent profileSuccess
  rw [h]
  exact ⟨⟨rfl, rfl, rfl, rfl⟩, ⟨rfl, rfl, rfl, rfl⟩⟩

/-- Claim C3, witness at the concrete initial state. -/
theorem c3_witness :
    ((profile_analysis_agent (.parsed ["obj"] 2 ["algebra"]) demoInit).workflow_step = "path_planning" ∧
     (profile_analysis_agent (.parsed ["obj"] 2 ["algebra"]) demoInit).current_agent = "PathPlannerAgent" ∧
     (profile_analysis_agent (.parsed ["obj"] 2 ["algebra"]) demoInit).retry_count = demoInit.retry_count ∧
     (profile_analysis_agent (.parsed ["obj"] 2 ["algebra"]) demoInit).should_continue = demoInit.should_continue) ∧
    ((profile_analysis_agent (.raise "boom") demoInit).retry_count = demoInit.retry_count + 1 ∧
     (profile_analysis_agent (.raise "boom") demoInit).should_continue = decide (demoInit.retry_count + 1 < 3) ∧
     (profile_analysis_agent (.raise "boom") demoInit).workflow_step = demoInit.workflow_step ∧
     (profile_analysis_agent (.raise "boom") demoInit).current_agent = demoInit.current_agent) :=
  c3_amended_profile_control_fields demoInit pDemo ["obj"] ["algebra"] 2 "boom" rfl

/-! ## Claim C7 — generator failure handling -/

/-- Claim C7, counterexample. When the generator returns un-parseable
output, the profile agent does not append any error and does not leave
its outputs untouched: it silently writes the complete fallback
analysis (`errors` stays empty while `learning_objectives` becomes
non-empty). -/
theorem c7_counterexample :
    (profile_analysis_agent .unparseable demoInit).errors = [] ∧
    (profile_analysis_agent .unparseable demoInit).learning_objectives ≠ [] := by
  decide

/-- Claim C7, amended. When the generator call raises, the stage
appends an error description and leaves its outputs untouched (shown
for the profile and content stages); when the generator returns
un-parseable output a complete fallback record is substituted with no
error recorded; and when the profile generator's output parses but
lacks `recommended_difficulty`, the agent half-writes: it sets
`learning_objectives` before the failure and appends the error while
`difficulty_level` keeps its old value. -/
theorem c7_amended_raise_leaves_outputs (s : AgentState) (q : LearnerProfile)
    (m : String) (o : List String)
    (h : s.learner_profile = .dict q) (h2 : content_tasks s ≠ []) :
    ((profile_analysis_agent (.raise m) s).learning_objectives = s.learning_objectives ∧
     (profile_analysis_agent (.raise m) s).difficulty_level = s.difficulty_level ∧
     (profile_analysis_agent (.raise m) s).weak_areas = s.weak_areas ∧
     (profile_analysis_agent (.raise m) s).errors = s.errors ++ ["Profile analysis failed: " ++ m]) ∧
    ((content_generator_agent (.raise m) s).generated_content = s.generated_content ∧
     (content_generator_agent (.raise m) s).errors = s.errors ++ ["Content generation failed: " ++ m]) ∧
    ((profile_analysis_agent (.objsOnly o) s).learning_objectives = o ∧
     (profile_analysis_agent (.objsOnly o) s).difficulty_level = s.difficulty_level ∧
     (profile_analysis_agent (.objsOnly o) s).errors = s.errors ++ ["Profile analysis failed: KeyError"]) := by
  unfold profile_analysis_agent content_generator_agent
  rw [h, if_neg h2]
  exact ⟨⟨rfl, rfl, rfl, rfl⟩, ⟨rfl, rfl⟩, ⟨rfl, rfl, rfl⟩⟩

/-- Claim C7, witness at a state carrying one pending content task. -/
theorem c7_witness :
    ((profile_analysis_agent (.raise "boom") c7_task_state).learning_objectives = c7_task_state.learning_objectives ∧
     (profile_analysis_agent (.raise "boom") c7_task_state).difficulty_level = c7_task_state.difficulty_level ∧
     (profile_analysis_agent (.raise "boom") c7_task_state).weak_areas = c7_task_state.weak_areas ∧
     (profile_analysis_agent (.raise "boom") c7_task_state).errors = c7_task_state.errors ++ ["Profile analysis failed: " ++ "boom"]) ∧
    ((content_generator_agent (.raise "boom") c7_task_state).generated_content = c7_task_state.generated_content ∧
     (content_generator_agent (.raise "boom") c7_task_state).errors = c7_task_state.errors ++ ["Content generation failed: " ++ "boom"]) ∧
    ((profile_analysis_agent (.objsOnly ["only-objs"]) c7_task_state).learning_objectives = ["only-objs"] ∧
     (profile_analysis_agent (.objsOnly ["only-objs"]) c7_task_state).difficulty_level = c7_task_state.difficulty_level ∧
     (profile_analysis_agent (.objsOnly ["only-objs"]) c7_task_state).errors = c7_task_state.errors ++ ["Profile analysis failed: KeyError"]) :=
  c7_amended_raise_leaves_outputs c7_task_state pDemo "boom" ["only-objs"] rfl (by decide)

/-! ## Claim C4 — retry_count reset policy -/

/-- Helper: every single stage invocation leaves `retry_count` equal or
larger; no agent ever decreases or resets it. -/
theorem agent_retry_monotone (st : Stage) (g : GenEnv) (s : AgentState) :
    s.retry_count ≤ (agentOf st g s).retry_count := by
  cases st with
  | profile =>
    show s.retry_count ≤ (profile_analysis_agent g.profileGen s).retry_count
    unfold profile_analysis_agent profileSuccess
    cases hp : s.learner_profile with
    | dict q => cases g.profileGen <;> simp
    | noneVal => simp
    | emptyDict => simp
  | path =>
    show s.retry_count ≤ (path_planner_agent g.pathGen s).retry_count
    unfold path_planner_agent pathSuccess
    cases get_latest_message s.messages "profile_analysis_complete" with
    | none => simp
    | some m => cases g.pathGen <;> simp
  | content =>
    show s.retry_count ≤ (content_generator_agent g.contentGen s).retry_count
    unfold content_generator_agent contentSuccess
    by_cases h : content_tasks s = []
    · simp [h]
    · cases g.contentGen <;> simp [h]
  | assessment =>
    show s.retry_count ≤ (assessment_agent g.assessGen s).retry_count
    unfold assessment_agent assessSuccess
    by_cases h : s.generated_content = []
    · simp [h]
    · cases g.assessGen <;> by_cases h2 : s.learner_profile.isNotNone <;> simp [h, h2]
  | orchestration =>
    show s.retry_count ≤ (orchestrator_agent s).retry_count
    simp only [orchestrator_agent]
    split_ifs <;> simp

/-- Claim C4, counterexample. Nothing resets `retry_count` on a
`continue` verdict: a profile invocation from a state with a leftover
`retry_count` of 2 and no errors succeeds, the router says `continue`,
and the engine hands the very same state — `retry_count` still 2, not
0 — to the path-planning stage; the full clean run terminates with
`retry_count` still 2. There is one run-global counter, not a
per-stage one. -/
theorem c4_counterexample :
    should_continue_from_profile c4_post = "continue" ∧
    c4_post.retry_count = 2 ∧
    run demoEnvC4 5 0 .profile c4_pre = run demoEnvC4 4 1 .path c4_post ∧
    (run demoEnvC4 5 0 .profile c4_pre).map AgentState.retry_count = some 2 := by
  decide

/-- Claim C4, amended. `retry_count` is a single run-global counter:
it is monotonically non-decreasing across the whole run — every stage
invocation leaves it equal or larger and no transition (in particular
no `continue` advance and no re-entry) ever resets it to 0. -/
theorem c4_amended_retry_monotone (env : Nat → GenEnv) :
    ∀ (n k : Nat) (st : Stage) (s s' : AgentState),
      run env n k st s = some s' → s.retry_count ≤ s'.retry_count := by
  intro n
  induction n with
  | zero => intro k st s s' h; exact absurd h (by simp [run])
  | succ m ih =>
    intro k st s s' h
    simp only [run] at h
    by_cases hst : st = .orchestration
    · rw [if_pos hst] at h
      injection h with h
      rw [← h]
      exact agent_retry_monotone st (env k) s
    · rw [if_neg hst] at h
      by_cases hc : routerOf st (agentOf st (env k) s) = "continue"
      · rw [if_pos hc] at h
        exact le_trans (agent_retry_monotone st (env k) s)
          (ih (k + 1) (nextStageOf st) _ s' h)
      · rw [if_neg hc] at h
        by_cases hr : routerOf st (agentOf st (env k) s) = "retry"
        · rw [if_pos hr] at h
          exact le_trans (agent_retry_monotone st (env k) s) (ih (k + 1) st _ s' h)
        · rw [if_neg hr] at h
          injection h with h
          rw [← h]
          exact agent_retry_monotone st (env k) s

/-- Claim C4, witness: three raising profile attempts end the run with
`retry_count` grown from 0 to 3. -/
theorem c4_witness : demoInit.retry_count ≤ raise3_final.retry_count :=
  c4_amended_retry_monotone demoEnvRaise 3 0 .profile demoInit raise3_final (by decide)

/-! ## Claim C5 — final-orchestration recovery routing -/

/-- Claim C5, counterexample. With `generated_content` empty and all
other required components present, the orchestrator only records the
incompleteness error and writes the `restart_content_generation` hint
into `next_action`/`current_agent`; the graph's unconditional
`orchestration → END` edge then terminates the run with fuel to spare —
no stage is re-invoked and `retry_count` is untouched rather than
restarted at 0. -/
theorem c5_counterexample :
    (orchestrator_agent c5_state).next_action = "restart_content_generation" ∧
    (orchestrator_agent c5_state).current_agent = "ContentGeneratorAgent" ∧
    (orchestrator_agent c5_state).retry_count = c5_state.retry_count ∧
    run demoEnvGood 5 0 .orchestration c5_state = some (orchestrator_agent c5_state) := by
  decide

/-- Claim C5, amended. When final orchestration finds
`generated_content` missing (profile present), it appends one
incompleteness error and sets `next_action` to
"restart_content_generation" and `current_agent` to
"ContentGeneratorAgent" as an advisory hint for the caller, leaving
`retry_count` unchanged; the workflow does not route back — the
orchestration node terminates the run in this same invocation. -/
theorem c5_amended_restart_hint_only (env : Nat → GenEnv) (n k : Nat) (s : AgentState)
    (h1 : s.learner_profile.isNotNone = true) (h2 : s.generated_content = []) :
    (orchestrator_agent s).next_action = "restart_content_generation" ∧
    (orchestrator_agent s).current_agent = "ContentGeneratorAgent" ∧
    (orchestrator_agent s).retry_count = s.retry_count ∧
    (orchestrator_agent s).errors.length = s.errors.length + 1 ∧
    run env (n + 1) k .orchestration s = some (orchestrator_agent s) := by
  have hrun : run env (n + 1) k .orchestration s = some (orchestrator_agent s) := by
    simp [run, agentOf]
  have hne : missing_components s ≠ [] := by
    unfold missing_components
    rw [h2]
    simp
  have hnoprof : (missing_components s).contains "learner_profile" = false := by
    unfold missing_components
    rw [h2]
    simp only [h1, if_true]
    split_ifs <;> decide
  have hcont : (missing_components s).contains "generated_content" = true := by
    unfold missing_components
    rw [h2]
    simp only [h1, if_true]
    split_ifs <;> first | decide | simp_all
  refine ⟨?_, ?_, ?_, ?_, hrun⟩ <;>
  · unfold orchestrator_agent
    rw [if_neg hne]
    rw [if_neg (by rw [hnoprof]; exact Bool.false_ne_true)]
    rw [if_pos hcont]
    try simp

/-- Claim C5, witness at the Scenario D state. -/
theorem c5_witness :
    (orchestrator_agent c5_state).next_action = "restart_content_generation" ∧
    (orchestrator_agent c5_state).current_agent = "ContentGeneratorAgent" ∧
    (orchestrator_agent c5_state).retry_count = c5_state.retry_count ∧
    (orchestrator_agent c5_state).errors.length = c5_state.errors.length + 1 ∧
    run demoEnvGood (4 + 1) 0 .orchestration c5_state = some (orchestrator_agent c5_state) :=
  c5_amended_restart_hint_only demoEnvGood 4 0 c5_state (by decide) (by decide)

/-! ## Claim C2 — termination bound -/

theorem profile_empty_run_diverges (env : Nat → GenEnv) :
    ∀ (n k : Nat) (s : AgentState), s.learner_profile.truthy = false →
      s.retry_count < 3 → run env n k .profile s = none := by
  intro n
  induction n with
  | zero => intro k s _ _; rfl
  | succ m ih =>
    intro k s h1 h2
    have hag := profile_agent_no_profile (env k).profileGen s h1
    have hv : should_continue_from_profile (profile_analysis_agent (env k).profileGen s) = "retry" := by
      rw [hag]
      simp [should_continue_from_profile, h2]
    show run env (m + 1) k .profile s = none
    simp only [run, routerOf, agentOf]
    rw [if_neg (show ¬(Stage.profile = Stage.orchestration) from by decide)]
    rw [hv]
    rw [if_neg (show ¬(("retry" : String) = "continue") from by decide)]
    rw [if_pos rfl]
    exact ih (k + 1) (profile_analysis_agent (env k).profileGen s)
      (by rw [hag]; exact h1) (by rw [hag]; exact h2)

/-- Claim C2, counterexample. The claimed universal bound of
`stages.length × (ceiling + 1) = 20` stage invocations fails: from the
initial state built for an empty learner profile, the run has not
terminated after 20 invocations (the profile agent appends its
no-profile error on every attempt without ever incrementing
`retry_count`, so the router keeps answering `retry`). -/
theorem c2_counterexample :
    run demoEnvRaise 20 0 .profile demoInitEmpty = none :=
  profile_empty_run_diverges demoEnvRaise 20 0 demoInitEmpty (by decide) (by decide)

/-- Claim C2, amended. Termination within the claimed bound does not
hold for every initial state: for the empty-learner-profile initial
state the run is non-terminating outright — for every generator
environment and every fuel `n`, `run` has still not terminated after
`n` stage invocations, even though every generator call itself
terminates (all generator outcomes are total values here). -/
theorem c2_amended_no_uniform_bound (env : Nat → GenEnv) (n k : Nat) :
    run env n k .profile demoInitEmpty = none :=
  profile_empty_run_diverges env n k demoInitEmpty (by decide) (by decide)

/-- Context: a run in which every generator call parses cleanly and no
error is ever recorded does terminate, in exactly one invocation per
stage. -/
theorem clean_run_terminates :
    (run demoEnvGood 5 0 .profile demoInit).isSome = true ∧
    (run demoEnvGood 4 0 .profile demoInit).isSome = false := by decide

/-! ## Claim C6 — engine result contract -/

/-- Claim C6, counterexample. When `workflow.invoke` itself raises —
here the framework's recursion-limit error on the endlessly retrying
empty-profile run — `run_workflow_sync` returns the exception shape
carrying only the exception string and the untouched initial state as
partial results: the accumulated errors list and the partial outputs
completed before failure are absent (the initial state's `errors` is
empty even though the very first invocation had already recorded an
error). -/
theorem c6_counterexample :
    run_workflow_sync demoEnvRaise 25 .emptyDict "lrn" "sid" =
      .failedExc "GraphRecursionError" demoInitEmpty ∧
    demoInitEmpty.errors = [] ∧
    (profile_analysis_agent ((demoEnvRaise 0).profileGen) demoInitEmpty).errors ≠ [] := by
  refine ⟨?_, by decide, by decide⟩
  simp only [run_workflow_sync]
  rw [show create_initial_state .emptyDict "lrn" "sid" = demoInitEmpty from rfl]
  rw [profile_empty_run_diverges demoEnvRaise 25 0 demoInitEmpty (by decide) (by decide)]

/-- Claim C6, amended. `run_workflow_sync` always returns a result
record with a success flag and never raises (it is a total function of
the invoke outcome); when the graph invocation completes in a state
with recorded errors, the result carries `success = false`, the full
accumulated errors list, and the partial outputs completed before
failure (`generated_content`, `quiz_questions`,
`learning_objectives`); only when `invoke` itself raises does the
result instead carry the exception string with the initial state. -/
theorem c6_amended_failed_run_payload (env : Nat → GenEnv) (limit : Nat)
    (p : ProfileDict) (learnerId sessionId : String) (s : AgentState)
    (h1 : run env limit 0 .profile (create_initial_state p learnerId sessionId) = some s)
    (h2 : s.errors ≠ []) :
    run_workflow_sync env limit p learnerId sessionId =
      .failed s.errors s.generated_content s.quiz_questions s.learning_objectives ∧
    (run_workflow_sync env limit p learnerId sessionId).success = false := by
  have hmain : run_workflow_sync env limit p learnerId sessionId =
      .failed s.errors s.generated_content s.quiz_questions s.learning_objectives := by
    simp only [run_workflow_sync]
    rw [h1]
    simp only [extract_workflow_results]
    rw [if_pos h2]
  exact ⟨hmain, by rw [hmain]; rfl⟩

/-- Claim C6, witness: a profile stage that raises three times ends the
run with three recorded errors, and the result carries the full list. -/
theorem c6_witness :
    run_workflow_sync demoEnvRaise 3 (.dict pDemo) "lrn" "sid" =
      .failed raise3_final.errors raise3_final.generated_content
        raise3_final.quiz_questions raise3_final.learning_objectives ∧
    (run_workflow_sync demoEnvRaise 3 (.dict pDemo) "lrn" "sid").success = false :=
  c6_amended_failed_run_payload demoEnvRaise 3 (.dict pDemo) "lrn" "sid" raise3_final
    (by decide) (by decide)

/-! ## Claim C9 — append-only logs -/

theorem agent_logs_grow (st : Stage) (g : GenEnv) (s : AgentState) :
    GrowsTo s.messages (agentOf st g s).messages ∧
    GrowsTo s.errors (agentOf st g s).errors := by
  cases st with
  | profile =>
    show GrowsTo s.messages (profile_analysis_agent g.profileGen s).messages ∧
      GrowsTo s.errors (profile_analysis_agent g.profileGen s).errors
    unfold profile_analysis_agent profileSuccess
    cases hp : s.learner_profile with
    | dict q =>
      cases g.profileGen <;>
        exact ⟨by first | exact growsTo_refl _ | exact growsTo_append _ _,
               by first | exact growsTo_refl _ | exact growsTo_append _ _⟩
    | noneVal => exact ⟨growsTo_refl _, growsTo_append _ _⟩
    | emptyDict => exact ⟨growsTo_refl _, growsTo_append _ _⟩
  | path =>
    show GrowsTo s.messages (path_planner_agent g.pathGen s).messages ∧
      GrowsTo s.errors (path_planner_agent g.pathGen s).errors
    unfold path_planner_agent pathSuccess
    cases get_latest_message s.messages "profile_analysis_complete" with
    | none => exact ⟨growsTo_refl _, growsTo_append _ _⟩
    | some m =>
      cases g.pathGen <;>
        exact ⟨by first | exact growsTo_refl _ | exact growsTo_append _ _,
               by first | exact growsTo_refl _ | exact growsTo_append _ _⟩
  | content =>
    show GrowsTo s.messages (content_generator_agent g.contentGen s).messages ∧
      GrowsTo s.errors (content_generator_agent g.contentGen s).errors
    unfold content_generator_agent contentSuccess
    by_cases h : content_tasks s = []
    · rw [if_pos h]
      exact ⟨growsTo_refl _, growsTo_refl _⟩
    · rw [if_neg h]
      cases g.contentGen <;>
        exact ⟨by first | exact growsTo_refl _ | exact growsTo_append _ _,
               by first | exact growsTo_refl _ | exact growsTo_append _ _⟩
  | assessment =>
    show GrowsTo s.messages (assessment_agent g.assessGen s).messages ∧
      GrowsTo s.errors (assessment_agent g.assessGen s).errors
    unfold assessment_agent assessSuccess
    by_cases h : s.generated_content = []
    · rw [if_pos h]
      exact ⟨growsTo_refl _, growsTo_append _ _⟩
    · rw [if_neg h]
      cases g.assessGen <;> by_cases h2 : s.learner_profile.isNotNone <;>
        simp only [h2, if_true, if_false] <;>
        exact ⟨by first | exact growsTo_refl _ | exact growsTo_append _ _,
               by first | exact growsTo_refl _ | exact growsTo_append _ _⟩
  | orchestration =>
    show GrowsTo s.messages (orchestrator_agent s).messages ∧
      GrowsTo s.errors (orchestrator_agent s).errors
    simp only [orchestrator_agent]
    split_ifs <;>
      exact ⟨by first | exact growsTo_refl _ | exact growsTo_append _ _,
             by first | exact growsTo_refl _ | exact growsTo_append _ _⟩

/-- Claim C9, confirmed. The message log and the errors list are
append-only across every terminating run: whatever the generator
outcomes, fuel, starting stage and starting state, the final state's
`messages` and `errors` carry the original entries unchanged, in the
original order, as a prefix (so their lengths never decrease). The
routers read but never write the state, so every state change along a
run goes through a stage invocation covered here. -/
theorem c9_append_only_logs (env : Nat → GenEnv) :
    ∀ (n k : Nat) (st : Stage) (s s' : AgentState),
      run env n k st s = some s' →
      GrowsTo s.messages s'.messages ∧ GrowsTo s.errors s'.errors := by
  intro n
  induction n with
  | zero => intro k st s s' h; exact absurd h (by simp [run])
  | succ m ih =>
    intro k st s s' h
    simp only [run] at h
    by_cases hst : st = .orchestration
    · rw [if_pos hst] at h
      injection h with h
      rw [← h]
      exact agent_logs_grow st (env k) s
    · rw [if_neg hst] at h
      by_cases hc : routerOf st (agentOf st (env k) s) = "continue"
      · rw [if_pos hc] at h
        have hstep := agent_logs_grow st (env k) s
        have hrest := ih (k + 1) (nextStageOf st) _ s' h
        exact ⟨growsTo_trans hstep.1 hrest.1, growsTo_trans hstep.2 hrest.2⟩
      · rw [if_neg hc] at h
        by_cases hr : routerOf st (agentOf st (env k) s) = "retry"
        · rw [if_pos hr] at h
          have hstep := agent_logs_grow st (env k) s
          have hrest := ih (k + 1) st _ s' h
          exact ⟨growsTo_trans hstep.1 hrest.1, growsTo_trans hstep.2 hrest.2⟩
        · rw [if_neg hr] at h
          injection h with h
          rw [← h]
          exact agent_logs_grow st (env k) s

/-- Claim C9, witness on a one-invocation terminating run through the
orchestration stage. -/
theorem c9_witness :
    GrowsTo demoInit.messages (orchestrator_agent demoInit).messages ∧
    GrowsTo demoInit.errors (orchestrator_agent demoInit).errors :=
  c9_append_only_logs demoEnvGood 1 0 .orchestration demoInit
    (orchestrator_agent demoInit) (by decide)

end LearningWorkflow
